import Mathlib

/-!
Shallow embedding of the licence-key issuance/validation service in
`src/main.py` (Flask + SQLAlchemy, single `Licence` table), together
with proofs of the specification's claims about it.

Modelling conventions:
* A `Licence` row is a record; the SQLAlchemy `NULL`-able `hwid` column
  is `Option String`.  `expiry` (a `DateTime`) is modelled as an `Int`
  count of seconds; `datetime.utcnow()` becomes an explicit `now : Int`
  parameter of each handler that reads the clock.
* The database session is a `Store := List Licence`; `Licence.query.get`
  is a first-match lookup on the primary key, and `query.get(None)`
  matches no row (a primary-key column never holds `NULL`).
* Request JSON/query fields arrive as `Option String` (`none` = absent);
  Python falsiness (`not code`) is `fieldMissing` (absent or empty).
* Handlers return a `Resp` (status code and message) and, when they
  write, the updated store.  `uuid.uuid4()` in `generate_code` and the
  boto3 presigner in `get_link` are external effects, passed in as
  explicit parameters (the raw uuid string; the signer's outcome).
-/

structure Licence where
  licence_code : String
  hwid : Option String
  expiry : Int
  activated : Bool
deriving Repr, DecidableEq

abbrev Store := List Licence

/-- An HTTP response: status code and the `msg` (or payload) string. -/
structure Resp where
  status : Nat
  msg : String
deriving Repr, DecidableEq

/-- `Licence.query.get(code)`: primary-key lookup.  `get(None)` finds
nothing, since no stored row has a `NULL` primary key. -/
def queryGet (s : Store) (code : Option String) : Option Licence :=
  match code with
  | none => none
  | some c => s.find? (fun l => l.licence_code == c)

/-- Python falsiness of an optional request field: absent or `""`. -/
def fieldMissing : Option String → Bool
  | none => true
  | some s => s.isEmpty

/-- `str(uuid.uuid4()).split("-")[0].upper()` (`src/main.py:67`):
the characters before the first `-` of the uuid string, upper-cased.
(Python's `split("-")[0]` is exactly the prefix up to the first dash,
and on the ASCII hex characters of a uuid string `.upper()` is
per-character ASCII upper-casing, i.e. `Char.toUpper`.) -/
def uuidToCode (u : String) : String :=
  String.mk ((u.data.takeWhile (fun c => c ≠ '-')).map Char.toUpper)

/-- Seconds in `timedelta(days=30)`. -/
def thirtyDays : Int := 30 * 86400

/-- `POST /generate_code` (`src/main.py:62-74`).  `adminOk` is the
outcome of `require_admin()`; `u` the fresh uuid string; `now` the
clock.  The new row is added with `hwid` unset and `activated` at its
column default `False`; the success payload carries the new code.
The handler itself performs no duplicate check; the primary-key
constraint on `licence_code` makes `db.session.commit()` raise an
IntegrityError on a colliding code, which no `except` catches — Flask
turns the unhandled exception into a 500 and the row is not stored. -/
def generate_code (s : Store) (adminOk : Bool) (u : String) (now : Int) :
    Resp × Store :=
  if !adminOk then
    (⟨401, "Unauthorized"⟩, s)
  else
    let code := uuidToCode u
    let expiry := now + thirtyDays
    if s.any (fun l => l.licence_code == code) then
      (⟨500, "IntegrityError: UNIQUE constraint failed (unhandled)"⟩, s)
    else
      (⟨200, code⟩, s ++ [⟨code, none, expiry, false⟩])

/-- The committed write of `activate`: every row with this primary key
gets `hwid = hwid`, `activated = True` (`src/main.py:94-96`). -/
def bindLicence (s : Store) (code hwid : String) : Store :=
  s.map (fun l =>
    if l.licence_code == code then
      { l with hwid := some hwid, activated := true }
    else l)

/-- `POST /activate` (`src/main.py:77-98`): missing-field check, lookup,
conflict check against the stored binding, then bind and commit. -/
def activate (s : Store) (codeF hwidF : Option String) : Resp × Store :=
  if fieldMissing codeF || fieldMissing hwidF then
    (⟨400, "Missing licence_code or hwid"⟩, s)
  else
    match queryGet s codeF with
    | none => (⟨404, "Invalid licence code"⟩, s)
    | some licence =>
      let hwid := hwidF.getD ""
      if licence.activated && licence.hwid != some hwid then
        (⟨403, "Licence already activated on a different machine."⟩, s)
      else
        (⟨200, "Licence activated successfully."⟩,
          bindLicence s (codeF.getD "") hwid)

/-- `POST /check` (`src/main.py:101-118`): no missing-field check;
lookup, activation/hwid test, then strict expiry test.  The stored
`hwid : Option String` is compared against the raw optional field, as
Python compares the column value with `data.get("hwid")`. -/
def check (s : Store) (now : Int) (codeF hwidF : Option String) : Resp :=
  match queryGet s codeF with
  | none => ⟨404, "Licence not found"⟩
  | some licence =>
    if !licence.activated || licence.hwid != hwidF then
      ⟨403, "HWID mismatch or licence not activated"⟩
    else if now > licence.expiry then
      ⟨403, "Licence expired."⟩
    else
      ⟨200, "Licence valid"⟩

/-- `POST /check_hwid` (`src/main.py:121-137`): requires a non-empty
`hwid`, then `filter_by(hwid=hwid).first()` and the expiry test. -/
def check_hwid (s : Store) (now : Int) (hwidF : Option String) : Resp :=
  if fieldMissing hwidF then
    ⟨400, "Missing HWID"⟩
  else
    match s.find? (fun l => l.hwid == some (hwidF.getD "")) with
    | none => ⟨404, "HWID not activated."⟩
    | some licence =>
      if now > licence.expiry then ⟨403, "Licence expired."⟩
      else ⟨200, "Licence valid"⟩

/-- Result of `GET /get_link/<filename>`: the response, plus the
`ExpiresIn` value passed to the external signer when (and only when)
the signer was invoked. -/
structure LinkResult where
  resp : Resp
  signerExpiresIn : Option Nat
deriving Repr, DecidableEq

/-- `GET /get_link` (`src/main.py:157-184`): the licence check (same
three tests as `/check`, on query args), then the presigned-URL call
with `ExpiresIn=120`.  `signer` is the external call's outcome:
`some url` on success, `none` when it raises. -/
def get_link (s : Store) (now : Int) (codeF hwidF : Option String)
    (signer : Option String) : LinkResult :=
  match queryGet s codeF with
  | none => ⟨⟨404, "Licence not found"⟩, none⟩
  | some licence =>
    if !licence.activated || licence.hwid != hwidF then
      ⟨⟨403, "HWID mismatch or licence not activated"⟩, none⟩
    else if now > licence.expiry then
      ⟨⟨403, "Licence expired."⟩, none⟩
    else
      match signer with
      | none => ⟨⟨500, "Error generating download link"⟩, some 120⟩
      | some url => ⟨⟨200, url⟩, some 120⟩

/-- `GET /admin/list_licences` (`src/main.py:140-154`): admin-gated
read-only snapshot of every row. -/
def list_licences (s : Store) (adminOk : Bool) : Resp × List Licence :=
  if !adminOk then (⟨401, "Unauthorized"⟩, [])
  else (⟨200, "ok"⟩, s)

/-- One inbound request, with its external inputs (admin-check outcome,
fresh uuid, clock reading, signer outcome) made explicit. -/
inductive Op where
  | generate (adminOk : Bool) (u : String) (now : Int)
  | activateOp (codeF hwidF : Option String)
  | checkOp (now : Int) (codeF hwidF : Option String)
  | checkHwidOp (now : Int) (hwidF : Option String)
  | listOp (adminOk : Bool)
  | getLinkOp (now : Int) (codeF hwidF : Option String) (signer : Option String)
deriving Repr, DecidableEq

/-- The store after serving one request.  `/check`, `/check_hwid`,
`/admin/list_licences` and `/get_link` never write (`src/main.py` has
no attribute assignment or `commit` in those handlers). -/
def step (s : Store) : Op → Store
  | .generate adminOk u now => (generate_code s adminOk u now).2
  | .activateOp codeF hwidF => (activate s codeF hwidF).2
  | .checkOp _ _ _ => s
  | .checkHwidOp _ _ => s
  | .listOp _ => s
  | .getLinkOp _ _ _ _ => s

/-- The store reached from the empty database by a request sequence. -/
def runOps (ops : List Op) : Store :=
  ops.foldl step []

/-- The read/check phase of the `activate` handler, run against a
snapshot of the store (`src/main.py:80-92`): either an early response
(missing field, unknown code, hwid conflict), or the decision to
proceed to the bind with the given code and hwid. -/
def activateRead (s : Store) (codeF hwidF : Option String) :
    Sum Resp (String × String) :=
  if fieldMissing codeF || fieldMissing hwidF then
    .inl ⟨400, "Missing licence_code or hwid"⟩
  else
    match queryGet s codeF with
    | none => .inl ⟨404, "Invalid licence code"⟩
    | some licence =>
      let hwid := hwidF.getD ""
      if licence.activated && licence.hwid != some hwid then
        .inl ⟨403, "Licence already activated on a different machine."⟩
      else
        .inr (codeF.getD "", hwid)

/-- Two concurrent `activate` requests on the same snapshot,
interleaved as: A's read phase, B's read phase, A's commit, B's
commit — the interleaving a read-then-write handler admits when the
read-check-write is not one atomic unit.  Each read phase sees the
initial snapshot; each commit applies to the store as it then is.
Returns A's response, B's response, and the final store. -/
def racyActivatePair (s : Store) (codeF hwidFA hwidFB : Option String) :
    Resp × Resp × Store :=
  match activateRead s codeF hwidFA, activateRead s codeF hwidFB with
  | .inl ra, .inl rb => (ra, rb, s)
  | .inl ra, .inr (cb, hb) =>
      (ra, ⟨200, "Licence activated successfully."⟩, bindLicence s cb hb)
  | .inr (ca, ha), .inl rb =>
      (⟨200, "Licence activated successfully."⟩, rb, bindLicence s ca ha)
  | .inr (ca, ha), .inr (cb, hb) =>
      (⟨200, "Licence activated successfully."⟩,
       ⟨200, "Licence activated successfully."⟩,
       bindLicence (bindLicence s ca ha) cb hb)

/-- The §3 invariant: an activated row carries a non-empty hwid. -/
def StoreInv (s : Store) : Prop :=
  ∀ l ∈ s, l.activated = true → ∃ h, l.hwid = some h ∧ h ≠ ""

/-- The create-once fields of a row: primary key and expiry. -/
def keyExp (l : Licence) : String × Int :=
  (l.licence_code, l.expiry)

/-- Sanity: with no interleaving, the read phase followed by the commit
is exactly the `activate` handler, tying the race model to the code. -/
theorem activate_eq_read_then_commit (s : Store) (codeF hwidF : Option String) :
    activate s codeF hwidF =
      match activateRead s codeF hwidF with
      | .inl r => (r, s)
      | .inr (c, h) =>
          (⟨200, "Licence activated successfully."⟩, bindLicence s c h) := by
  unfold activate activateRead
  split
  · rfl
  · rcases hq : queryGet s codeF with _ | l
    · simp [hq]
    · simp only [hq]
      split <;> rfl

/-- C1: a licence recorded as activated on `hwidA`, activated again
with the same code and a different non-empty `hwidB`, gets the 403
hwid-conflict response and the whole store — hence the stored record's
`hwid`, `activated`, `expiry` and `code` — is returned unchanged. -/
theorem activate_conflict_leaves_store (s : Store) (codeF : Option String)
    (hwidA hwidB : String) (l : Licence)
    (hcode : fieldMissing codeF = false)
    (hB : hwidB ≠ "")
    (hfind : queryGet s codeF = some l)
    (hact : l.activated = true)
    (hstored : l.hwid = some hwidA)
    (hne : hwidB ≠ hwidA) :
    activate s codeF (some hwidB) =
      (⟨403, "Licence already activated on a different machine."⟩, s) := by
  have hbe : fieldMissing (some hwidB) = false := by
    show hwidB.isEmpty = false
    rw [Bool.eq_false_iff]
    intro h
    exact hB ((String.isEmpty_iff _).mp h)
  simp [activate, hcode, hbe, hfind, hact, hstored, Ne.symm hne]

theorem activate_conflict_leaves_store_witness :
    activate [⟨"ABC", some "HW1", 100, true⟩] (some "ABC") (some "HW2") =
      (⟨403, "Licence already activated on a different machine."⟩,
       [⟨"ABC", some "HW1", 100, true⟩]) :=
  activate_conflict_leaves_store [⟨"ABC", some "HW1", 100, true⟩] (some "ABC")
    "HW1" "HW2" ⟨"ABC", some "HW1", 100, true⟩ (by decide) (by decide)
    (by decide) rfl rfl (by decide)

/-- C10: `/check` performs no presence check on its fields: with
`licence_code` absent (or no body at all) the lookup runs with a null
key and returns 404, never 400 — unlike `/activate` and `/check_hwid`,
which reject missing fields with 400. -/
theorem check_missing_code_404 (s : Store) (now : Int) (hwidF : Option String) :
    check s now none hwidF = ⟨404, "Licence not found"⟩
    ∧ activate s none hwidF = (⟨400, "Missing licence_code or hwid"⟩, s)
    ∧ check_hwid s now none = ⟨400, "Missing HWID"⟩ :=
  ⟨rfl, rfl, rfl⟩

/-- C5: for a found, activated, hwid-matching licence, `/check` reports
`Expired` exactly when the clock is strictly past the stored expiry: at
`expiry + 1` it fails with Expired, while at `expiry - 1` and at
`expiry` itself it succeeds. -/
theorem check_expiry_strict (s : Store) (codeF hwidF : Option String)
    (l : Licence)
    (hfind : queryGet s codeF = some l)
    (hact : l.activated = true)
    (hmatch : l.hwid = hwidF) :
    (∀ now : Int,
      check s now codeF hwidF = ⟨403, "Licence expired."⟩ ↔ l.expiry < now)
    ∧ check s (l.expiry + 1) codeF hwidF = ⟨403, "Licence expired."⟩
    ∧ check s (l.expiry - 1) codeF hwidF = ⟨200, "Licence valid"⟩
    ∧ check s l.expiry codeF hwidF = ⟨200, "Licence valid"⟩ := by
  have key : ∀ now : Int, check s now codeF hwidF =
      if l.expiry < now then ⟨403, "Licence expired."⟩
      else ⟨200, "Licence valid"⟩ := by
    intro now
    simp [check, hfind, hact, hmatch, gt_iff_lt]
  refine ⟨fun now => ?_, ?_, ?_, ?_⟩
  · rw [key]
    split <;> simp_all
  · rw [key, if_pos (by omega)]
  · rw [key, if_neg (by omega)]
  · rw [key, if_neg (by omega)]

theorem check_expiry_strict_witness :
    check [⟨"ABC", some "HW", 100, true⟩] 101 (some "ABC") (some "HW") =
      ⟨403, "Licence expired."⟩
    ∧ check [⟨"ABC", some "HW", 100, true⟩] 100 (some "ABC") (some "HW") =
      ⟨200, "Licence valid"⟩ :=
  ⟨((check_expiry_strict [⟨"ABC", some "HW", 100, true⟩] (some "ABC")
        (some "HW") ⟨"ABC", some "HW", 100, true⟩ (by decide) rfl rfl).1
      101).mpr (by decide),
   (check_expiry_strict [⟨"ABC", some "HW", 100, true⟩] (some "ABC")
        (some "HW") ⟨"ABC", some "HW", 100, true⟩ (by decide) rfl rfl).2.2.2⟩

/-- C2 (code bug): the handler's read-then-bind is not atomic — under
the interleaving (A reads, B reads, A commits, B commits) on a freshly
issued unbound code, both activations with distinct hwids return 200
and B's commit overwrites A's binding: two successes and a lost
update, instead of one success and one `HwidConflict`. -/
theorem racy_double_activation :
    racyActivatePair [⟨"ABC1", none, 100, false⟩]
        (some "ABC1") (some "HWA") (some "HWB") =
      (⟨200, "Licence activated successfully."⟩,
       ⟨200, "Licence activated successfully."⟩,
       [⟨"ABC1", some "HWB", 100, true⟩]) := by decide

/-- C8 (code bug): `generate_code` keeps only the first dash-delimited
segment of the uuid string (32 bits), so two distinct uuids yield the
same code, and the handler has no duplicate handling: on a collision
the second insert hits the primary-key constraint and fails
uncontrolled (unhandled IntegrityError surfacing as a 500). -/
theorem generate_code_collision_uncontrolled :
    ("ab12cd34-1111-2222-3333-444444444444" : String) ≠
        "ab12cd34-aaaa-bbbb-cccc-dddddddddddd"
    ∧ uuidToCode "ab12cd34-1111-2222-3333-444444444444" =
        uuidToCode "ab12cd34-aaaa-bbbb-cccc-dddddddddddd"
    ∧ (generate_code [] true "ab12cd34-1111-2222-3333-444444444444" 0).1.status
        = 200
    ∧ (generate_code
          (generate_code [] true "ab12cd34-1111-2222-3333-444444444444" 0).2
          true "ab12cd34-aaaa-bbbb-cccc-dddddddddddd" 0).1.status = 500 :=
  ⟨by decide, by decide, rfl, rfl⟩

/-- `bindLicence` only touches rows whose key matches, and on those it
only rewrites `hwid` and `activated`, so the primary-key lookup after
a bind finds the bound version of what it found before. -/
theorem bindLicence_find? (s : Store) (c hw : String) :
    queryGet (bindLicence s c hw) (some c)
      = (queryGet s (some c)).map
          (fun l => { l with hwid := some hw, activated := true }) := by
  simp only [queryGet, bindLicence]
  rw [List.find?_map]
  have hcomp : ∀ x : Licence,
      ((fun l : Licence => l.licence_code == c) ∘ (fun l : Licence =>
        if l.licence_code == c then
          { l with hwid := some hw, activated := true }
        else l)) x = (x.licence_code == c) := by
    intro x
    by_cases hx : (x.licence_code == c) = true <;>
      simp [Function.comp, hx]
  rw [funext hcomp]
  rcases hfind : List.find? (fun x : Licence => x.licence_code == c) s
    with _ | l
  · rfl
  · have hc : (l.licence_code == c) = true :=
      @List.find?_some Licence (fun x => x.licence_code == c) l s hfind
    simp [hc]
    intro hne
    exact absurd (eq_of_beq hc) hne

/-- Binding the same code/hwid twice is the same as binding it once. -/
theorem bindLicence_idem (s : Store) (c hw : String) :
    bindLicence (bindLicence s c hw) c hw = bindLicence s c hw := by
  unfold bindLicence
  rw [List.map_map]
  congr 1
  funext x
  by_cases hx : (x.licence_code == c) = true <;>
    simp [Function.comp, hx]

/-- `bindLicence` preserves every row's primary key and expiry. -/
theorem bindLicence_keyExp (s : Store) (c hw : String) :
    (bindLicence s c hw).map keyExp = s.map keyExp := by
  unfold bindLicence
  rw [List.map_map]
  congr 1
  funext x
  by_cases hx : (x.licence_code == c) = true <;>
    simp [Function.comp, keyExp, hx]

/-- C3: `/check` evaluates its conditions in the fixed order
not-found, then not-activated-or-mismatch, then expired, then valid,
first match winning.  The mismatch clause does not consult the expiry,
so a licence that is both bound to a different hwid and past expiry
gets the 403 mismatch response, never the Expired one. -/
theorem check_precedence (s : Store) (now : Int) (codeF hwidF : Option String) :
    (queryGet s codeF = none →
      check s now codeF hwidF = ⟨404, "Licence not found"⟩)
    ∧ (∀ l, queryGet s codeF = some l →
        (l.activated = false ∨ l.hwid ≠ hwidF) →
        check s now codeF hwidF = ⟨403, "HWID mismatch or licence not activated"⟩)
    ∧ (∀ l, queryGet s codeF = some l →
        l.activated = true → l.hwid = hwidF → l.expiry < now →
        check s now codeF hwidF = ⟨403, "Licence expired."⟩)
    ∧ (∀ l, queryGet s codeF = some l →
        l.activated = true → l.hwid = hwidF → ¬ l.expiry < now →
        check s now codeF hwidF = ⟨200, "Licence valid"⟩) := by
  refine ⟨fun h => by simp [check, h], fun l hl hcond => ?_,
    fun l hl ha hh hlt => by simp [check, hl, ha, hh, gt_iff_lt, hlt],
    fun l hl ha hh hnlt => by simp [check, hl, ha, hh, gt_iff_lt, hnlt]⟩
  rcases hcond with hc | hc
  · simp [check, hl, hc]
  · simp [check, hl, hc]

theorem check_precedence_witness :
    check [⟨"ABC", some "HW1", 100, true⟩] 200 (some "ABC") (some "HW2") =
      ⟨403, "HWID mismatch or licence not activated"⟩ :=
  (check_precedence [⟨"ABC", some "HW1", 100, true⟩] 200 (some "ABC")
      (some "HW2")).2.1 ⟨"ABC", some "HW1", 100, true⟩ (by decide)
    (Or.inr (by decide))

/-- C4 as stated is false: it quantifies over every code, but for a
code that was never issued (here `"X"` against the reachable empty
store) both identical `activate` calls return 404, not 200. -/
theorem activate_idempotent_counterexample :
    ¬ ((activate (runOps []) (some "X") (some "HW")).1.status = 200
       ∧ (activate (activate (runOps []) (some "X") (some "HW")).2
            (some "X") (some "HW")).1.status = 200) := by decide

/-- C4 amended: whenever the first `activate(code, hwid)` call
succeeds (HTTP 200), an identical second call also succeeds, and the
store after the second call equals the store after the first. -/
theorem activate_idempotent (s : Store) (codeF hwidF : Option String)
    (h : (activate s codeF hwidF).1.status = 200) :
    (activate (activate s codeF hwidF).2 codeF hwidF).1.status = 200
    ∧ (activate (activate s codeF hwidF).2 codeF hwidF).2
        = (activate s codeF hwidF).2 := by
  rcases codeF with _ | c
  · simp [activate, fieldMissing] at h
  · cases hmc : fieldMissing (some c) with
    | true => simp [activate, hmc] at h
    | false =>
      cases hmh : fieldMissing hwidF with
      | true => simp [activate, hmc, hmh] at h
      | false =>
        rcases hq : queryGet s (some c) with _ | l
        · simp [activate, hmc, hmh, hq] at h
        · cases hcf : (l.activated && l.hwid != some (hwidF.getD "")) with
          | true => simp [activate, hmc, hmh, hq, hcf] at h
          | false =>
            have e1 : activate s (some c) hwidF =
                (⟨200, "Licence activated successfully."⟩,
                 bindLicence s c (hwidF.getD "")) := by
              simp [activate, hmc, hmh, hq, hcf]
            have hq2 : queryGet (bindLicence s c (hwidF.getD "")) (some c)
                = some { l with hwid := some (hwidF.getD ""),
                                activated := true } := by
              rw [bindLicence_find?, hq]
              rfl
            have e2 : activate (bindLicence s c (hwidF.getD "")) (some c) hwidF
                = (⟨200, "Licence activated successfully."⟩,
                   bindLicence (bindLicence s c (hwidF.getD "")) c
                     (hwidF.getD "")) := by
              simp [activate, hmc, hmh, hq2]
            rw [e1]
            dsimp only
            rw [e2]
            exact ⟨rfl, bindLicence_idem s c (hwidF.getD "")⟩

theorem activate_idempotent_witness :
    (activate (activate [⟨"ABC", none, 100, false⟩] (some "ABC")
        (some "HW")).2 (some "ABC") (some "HW")).1.status = 200
    ∧ (activate (activate [⟨"ABC", none, 100, false⟩] (some "ABC")
        (some "HW")).2 (some "ABC") (some "HW")).2
      = (activate [⟨"ABC", none, 100, false⟩] (some "ABC") (some "HW")).2 :=
  activate_idempotent [⟨"ABC", none, 100, false⟩] (some "ABC") (some "HW")
    (by decide)

/-- Serving one request preserves the §3 invariant. -/
theorem stepInv (s : Store) (op : Op) (hInv : StoreInv s) :
    StoreInv (step s op) := by
  cases op with
  | generate adminOk u now =>
    cases adminOk with
    | false =>
      have hst : step s (.generate false u now) = s := by
        simp [step, generate_code]
      rw [hst]; exact hInv
    | true =>
      cases hdup : s.any (fun l => l.licence_code == uuidToCode u) with
      | true =>
        have hst : step s (.generate true u now) = s := by
          simp [step, generate_code, hdup]
        rw [hst]; exact hInv
      | false =>
        have hst : step s (.generate true u now)
            = s ++ [⟨uuidToCode u, none, now + thirtyDays, false⟩] := by
          simp [step, generate_code, hdup]
        rw [hst]
        intro l hl hact
        rcases List.mem_append.mp hl with h | h
        · exact hInv l h hact
        · rw [List.mem_singleton] at h
          subst h
          cases hact
  | activateOp codeF hwidF =>
    cases hm : (fieldMissing codeF || fieldMissing hwidF) with
    | true =>
      have hst : step s (.activateOp codeF hwidF) = s := by
        simp [step, activate, hm]
      rw [hst]; exact hInv
    | false =>
      have hm2 : fieldMissing hwidF = false := by
        cases hfm : fieldMissing hwidF
        · rfl
        · rw [hfm, Bool.or_true] at hm
          cases hm
      rcases hq : queryGet s codeF with _ | l
      · have hst : step s (.activateOp codeF hwidF) = s := by
          simp [step, activate, hm, hq]
        rw [hst]; exact hInv
      · cases hcf : (l.activated && l.hwid != some (hwidF.getD "")) with
        | true =>
          have hst : step s (.activateOp codeF hwidF) = s := by
            simp [step, activate, hm, hq, hcf]
          rw [hst]; exact hInv
        | false =>
          have hst : step s (.activateOp codeF hwidF)
              = bindLicence s (codeF.getD "") (hwidF.getD "") := by
            simp [step, activate, hm, hq, hcf]
          rw [hst]
          have hhw : hwidF.getD "" ≠ "" := by
            rcases hwidF with _ | hws
            · simp [fieldMissing] at hm2
            · intro he
              rw [Option.getD_some] at he
              rw [he] at hm2
              exact absurd hm2 (by decide)
          intro l' hl' hact'
          rw [bindLicence, List.mem_map] at hl'
          obtain ⟨x, hx, hfx⟩ := hl'
          by_cases hxc : (x.licence_code == codeF.getD "") = true
          · rw [if_pos hxc] at hfx
            subst hfx
            exact ⟨hwidF.getD "", rfl, hhw⟩
          · rw [if_neg hxc] at hfx
            subst hfx
            exact hInv x hx hact'
  | checkOp now codeF hwidF => exact hInv
  | checkHwidOp now hwidF => exact hInv
  | listOp adminOk => exact hInv
  | getLinkOp now codeF hwidF signer => exact hInv

/-- C6: in every reachable store state, an activated licence carries a
non-empty hwid: `generate` creates rows with `activated = False` and
`hwid` unset, and `activate` sets `activated = True` only in the same
commit in which it stores a non-empty hwid. -/
theorem runOps_activated_implies_hwid (ops : List Op) (l : Licence)
    (hmem : l ∈ runOps ops) (hact : l.activated = true) :
    ∃ h, l.hwid = some h ∧ h ≠ "" := by
  have hInv : ∀ (rest : List Op) (s : Store), StoreInv s →
      StoreInv (rest.foldl step s) := by
    intro rest
    induction rest with
    | nil => intro s h; exact h
    | cons op t ih => intro s h; exact ih (step s op) (stepInv s op h)
  exact hInv ops [] (fun l hl _ => absurd hl (List.not_mem_nil l)) l hmem hact

theorem runOps_activated_implies_hwid_witness :
    (⟨"AB12CD34", some "HW", 2592000, true⟩ : Licence) ∈
        runOps [.generate true "ab12cd34-9999-8888-7777-666666666666" 0,
                .activateOp (some "AB12CD34") (some "HW")]
    ∧ ∃ h, (⟨"AB12CD34", some "HW", 2592000, true⟩ : Licence).hwid = some h
        ∧ h ≠ "" :=
  ⟨by decide,
   runOps_activated_implies_hwid
     [.generate true "ab12cd34-9999-8888-7777-666666666666" 0,
      .activateOp (some "AB12CD34") (some "HW")]
     ⟨"AB12CD34", some "HW", 2592000, true⟩ (by decide) rfl⟩

/-- C7: `code` and `expiry` are assigned once, at creation, and no
in-scope operation modifies them afterwards: `activate` preserves
every row's (code, expiry) pair — it writes only `hwid`/`activated` —
a successful `generate` appends exactly one row whose expiry is its
creation time plus 30 days and writes nothing else, failed generates
write nothing, and `/check`, `/check_hwid`, the admin list and
`/get_link` never write at all. -/
theorem code_expiry_create_once (s : Store) :
    (∀ codeF hwidF, ((activate s codeF hwidF).2).map keyExp = s.map keyExp)
    ∧ (∀ u now, (s.any fun l => l.licence_code == uuidToCode u) = false →
        ((generate_code s true u now).2).map keyExp
          = s.map keyExp ++ [(uuidToCode u, now + thirtyDays)])
    ∧ (∀ u now, (s.any fun l => l.licence_code == uuidToCode u) = true →
        (generate_code s true u now).2 = s)
    ∧ (∀ u now, (generate_code s false u now).2 = s)
    ∧ (∀ now codeF hwidF signer adminOk,
        step s (.checkOp now codeF hwidF) = s
        ∧ step s (.checkHwidOp now hwidF) = s
        ∧ step s (.listOp adminOk) = s
        ∧ step s (.getLinkOp now codeF hwidF signer) = s) := by
  refine ⟨?_, ?_, ?_, ?_, ?_⟩
  · intro codeF hwidF
    cases hm : (fieldMissing codeF || fieldMissing hwidF) with
    | true => simp [activate, hm]
    | false =>
      rcases hq : queryGet s codeF with _ | l
      · simp [activate, hm, hq]
      · cases hcf : (l.activated && l.hwid != some (hwidF.getD "")) with
        | true => simp [activate, hm, hq, hcf]
        | false => simp [activate, hm, hq, hcf, bindLicence_keyExp]
  · intro u now hdup
    simp [generate_code, hdup, keyExp]
  · intro u now hdup
    simp [generate_code, hdup]
  · intro u now
    simp [generate_code]
  · intro now codeF hwidF signer adminOk
    exact ⟨rfl, rfl, rfl, rfl⟩

theorem code_expiry_create_once_witness :
    ((generate_code [] true "ab12cd34-0000-0000-0000-000000000000" 5).2).map
        keyExp
      = ([] : Store).map keyExp
        ++ [(uuidToCode "ab12cd34-0000-0000-0000-000000000000",
             5 + thirtyDays)] :=
  (code_expiry_create_once []).2.1 "ab12cd34-0000-0000-0000-000000000000" 5
    (by decide)

/-- C9: the `/get_link` licence gate is exactly `/check` on the same
store, clock and request fields: the external signer is invoked — with
the 120-second URL validity — precisely when `/check` would return 200
"Licence valid", and on any failing licence check `/get_link` returns
the very response (status code and message) `/check` returns: 404
not-found, 403 mismatch/not-activated, 403 expired. -/
theorem get_link_refines_check (s : Store) (now : Int)
    (codeF hwidF : Option String) (signer : Option String) :
    ((get_link s now codeF hwidF signer).signerExpiresIn = some 120 ↔
      check s now codeF hwidF = ⟨200, "Licence valid"⟩)
    ∧ (check s now codeF hwidF ≠ ⟨200, "Licence valid"⟩ →
        (get_link s now codeF hwidF signer).resp
          = check s now codeF hwidF) := by
  rcases hq : queryGet s codeF with _ | l
  · constructor
    · constructor
      · intro habs
        simp [get_link, hq] at habs
      · intro habs
        simp [check, hq] at habs
    · intro _
      simp [get_link, check, hq]
  · cases hcond : (!l.activated || l.hwid != hwidF) with
    | true =>
      constructor
      · constructor
        · intro habs
          simp [get_link, hq, hcond] at habs
        · intro habs
          simp [check, hq, hcond] at habs
      · intro _
        simp [get_link, check, hq, hcond]
    | false =>
      by_cases hexp : now > l.expiry
      · constructor
        · constructor
          · intro habs
            simp [get_link, hq, hcond, hexp] at habs
          · intro habs
            simp [check, hq, hcond, hexp] at habs
        · intro _
          simp [get_link, check, hq, hcond, hexp]
      · have hc : check s now codeF hwidF = ⟨200, "Licence valid"⟩ := by
          simp [check, hq, hcond, hexp]
        constructor
        · rw [hc]
          simp only [iff_true]
          rcases signer with _ | url <;> simp [get_link, hq, hcond, hexp]
        · intro hne
          exact absurd hc hne

theorem get_link_refines_check_witness :
    (get_link [] 0 (some "X") none none).resp = check [] 0 (some "X") none :=
  (get_link_refines_check [] 0 (some "X") none none).2 (by decide)
